import Mathlib

/-!
Verification development for the capi-migration-controller repository.

The Go sources embedded here are:
  * `pkg/migration/azure_crs.go` — the azureMigrator read steps, write steps
    and the pure field-derivation helpers;
  * the cluster controller file (`ClusterReconciler.Reconcile`).

Strings are manipulated through their character lists so that every
definition reduces inside the kernel; machine bytes (IPv4 octets) are
natural numbers with explicit `% 256` where Go performs 8-bit arithmetic.
-/

/-! ### String helpers (kernel-reducible embeddings of the Go library calls) -/

/-- Embedding of Go `strings.Split(s, sep)` for a one-character separator,
working on the character list. `Split` always returns at least one group. -/
def splitCharsOn (sep : Char) : List Char → List (List Char)
  | [] => [[]]
  | c :: rest =>
    let r := splitCharsOn sep rest
    if c = sep then [] :: r
    else
      match r with
      | [] => [[c]]
      | g :: gs => (c :: g) :: gs

/-- `strings.Split(s, sep)` for a one-character separator, on `String`. -/
def splitOnChar (sep : Char) (s : String) : List String :=
  (splitCharsOn sep s.data).map (fun cs => String.mk cs)

/-- Embedding of Go `strings.Join(parts, ".")`. -/
def joinDot : List String → String
  | [] => ""
  | [s] => s
  | s :: rest => s ++ "." ++ joinDot rest

/-- Embedding of Go `strings.TrimPrefix(ver, "v")`: drop one leading `v`. -/
def trimLeadingV (s : String) : String :=
  match s.data with
  | 'v' :: rest => String.mk rest
  | _ => s

/-! ### Field derivation: base domain (azure_crs.go lines 449-459) -/

/-- `getInstallationBaseDomainFromAPIEndpoint`: split the endpoint host on
`.`, scan for the first label equal to `k8s`, and return the remaining
labels joined by `.`; error when no such label exists (azure_crs.go 449-459).
The Go error text contains single quotes, elided here. -/
def getInstallationBaseDomainFromAPIEndpoint (apiEndpoint : String) : Except String String :=
  let labels := splitOnChar '.' apiEndpoint
  match labels.findIdx? (fun l => l == "k8s") with
  | some i => Except.ok (joinDot (labels.drop (i + 1)))
  | none => Except.error "cannot find domain label k8s from ControlPlaneEndpoint.Host"

example : splitOnChar '.' "api.abc123.k8s.example.installation.com" =
    ["api", "abc123", "k8s", "example", "installation", "com"] := by decide

example : getInstallationBaseDomainFromAPIEndpoint "api.abc123.k8s.example.installation.com" =
    Except.ok "example.installation.com" := by rfl

example : getInstallationBaseDomainFromAPIEndpoint "api.gigantic.io" =
    Except.error "cannot find domain label k8s from ControlPlaneEndpoint.Host" := by rfl

/-! ### IPv4 / CIDR model (azure_crs.go lines 421-432 and 461-469) -/

/-- An IP address as Go `net.IP` is used here: either four IPv4 octets
(each a byte) or an IPv6 address, which `To4` reports as nil. -/
inductive IP where
  | v4 (a b c d : Nat)
  | v6
deriving DecidableEq, Repr

/-- Go `net.IPNet`: the (masked) network address plus the prefix length. -/
structure IPNet where
  ip : IP
  maskLen : Nat
deriving DecidableEq, Repr

/-- Parse a decimal number from a character list; `none` when empty or when
any character is not a digit. -/
def parseDec (cs : List Char) : Option Nat :=
  if cs.isEmpty then none
  else if cs.all (fun c => c.isDigit) then
    some (cs.foldl (fun n c => n * 10 + (c.toNat - 48)) 0)
  else none

/-- Parse a dotted-quad IPv4 address: four decimal fields, each at most 255. -/
def parseIPv4Chars (cs : List Char) : Option (Nat × Nat × Nat × Nat) :=
  match splitCharsOn '.' cs with
  | [a, b, c, d] =>
    match parseDec a, parseDec b, parseDec c, parseDec d with
    | some x, some y, some z, some w =>
      if x ≤ 255 && y ≤ 255 && z ≤ 255 && w ≤ 255 then some (x, y, z, w) else none
    | _, _, _, _ => none
  | _ => none

/-- Apply the prefix mask of length `mlen` to the four octets: clear the
low `32 - mlen` bits of the 32-bit address and return the network octets. -/
def maskOctets (x y z w mlen : Nat) : Nat × Nat × Nat × Nat :=
  let addr := ((x * 256 + y) * 256 + z) * 256 + w
  let net := addr - addr % 2 ^ (32 - mlen)
  (net / 2 ^ 24 % 256, net / 2 ^ 16 % 256, net / 2 ^ 8 % 256, net % 256)

/-- Embedding of Go `net.ParseCIDR` restricted to IPv4 (the only shape the
migrator feeds it): `a.b.c.d/mlen` with octets at most 255 and prefix length
at most 32; the returned `IPNet` carries the masked network address, exactly
as `ParseCIDR` returns `&IPNet\x7bIP: ip.Mask(mask), Mask: mask\x7d`. -/
def parseCIDR (s : String) : Option IPNet :=
  match splitCharsOn '/' s.data with
  | [ipPart, maskPart] =>
    match parseIPv4Chars ipPart, parseDec maskPart with
    | some (x, y, z, w), some mlen =>
      if mlen ≤ 32 then
        match maskOctets x y z w mlen with
        | (a, b, c, d) => some ⟨IP.v4 a b c d, mlen⟩
      else none
    | _, _ => none
  | _ => none

/-- Result of `getMasterIPForVNet`: the function either returns an address or
panics (its IPv6 branch calls `panic`, aborting the process). -/
inductive MasterIPResult where
  | ok (ip : IP)
  | panicked
deriving DecidableEq, Repr

/-- `getMasterIPForVNet` (azure_crs.go 461-469): panics when `To4` gives nil
(IPv6); otherwise builds `net.IPv4(ip[0], ip[1], ip[2], ip[3]+4)`. The octet
addition is Go byte arithmetic, hence the `% 256`. -/
def getMasterIPForVNet (vnet : IPNet) : MasterIPResult :=
  match vnet.ip with
  | IP.v4 a b c d => MasterIPResult.ok (IP.v4 a b c ((d + 4) % 256))
  | IP.v6 => MasterIPResult.panicked

/-- The AzureCluster fields the migrator touches: TypeMeta kind, name, the
VNET CIDR blocks, the control-plane endpoint host and the release-version
label value. -/
structure AzureCluster where
  kind : String
  name : String
  cidrBlocks : List String
  controlPlaneEndpointHost : String
  releaseVersion : String
deriving DecidableEq, Repr

/-- `getVNETCIDR` (azure_crs.go 421-432): first CIDR block of the cluster
network spec, parsed; errors when the block list is empty or parsing fails. -/
def getVNETCIDR (cluster : AzureCluster) : Except String IPNet :=
  match cluster.cidrBlocks with
  | [] => Except.error ("VNET CIDR not found for " ++ cluster.name)
  | s :: _ =>
    match parseCIDR s with
    | some n => Except.ok n
    | none => Except.error "invalid CIDR address"

example : parseCIDR "10.0.0.0/16" = some ⟨IP.v4 10 0 0 0, 16⟩ := by decide
example : parseCIDR "10.1.2.3/24" = some ⟨IP.v4 10 1 2 0, 24⟩ := by decide
example : parseCIDR "10.0.0.252/30" = some ⟨IP.v4 10 0 0 252, 30⟩ := by decide
example : getMasterIPForVNet ⟨IP.v4 10 0 0 0, 16⟩ = MasterIPResult.ok (IP.v4 10 0 0 4) := by decide
example : getMasterIPForVNet ⟨IP.v4 10 0 0 252, 30⟩ = MasterIPResult.ok (IP.v4 10 0 0 0) := by decide

/-! ### ClusterReconciler (controller file, `Reconcile`) -/

/-- The Cluster object as the reconciler uses it: only the deletion
timestamp is inspected (`!cluster.DeletionTimestamp.IsZero()`). -/
structure CAPICluster where
  name : String
  deletionTimestampSet : Bool
deriving DecidableEq, Repr

/-- `ctrl.Result`: requeue flag and the `RequeueAfter` duration in seconds
(the source always uses `30 * time.Second` when it sets it). -/
structure CtrlResult where
  requeue : Bool
  requeueAfterSeconds : Nat
deriving DecidableEq, Repr

/-- `ctrl.Result\x7b\x7d`, the zero result. -/
def emptyResult : CtrlResult := ⟨false, 0⟩

/-- `r.Get(ctx, req.NamespacedName, cluster)` against a store holding at most
the requested object: absence surfaces as the apiserver NotFound error. -/
def getCluster (store : Option CAPICluster) : Except String CAPICluster :=
  match store with
  | none => Except.error "clusters.cluster.x-k8s.io not found"
  | some c => Except.ok c

/-- `r.reconcile` (controller file, last lines): a stub that returns the zero
result and no error. -/
def reconcile : CAPICluster → CtrlResult × Option String :=
  fun _ => (emptyResult, none)

/-- `r.reconcileDelete`: the same stub shape as `reconcile`. -/
def reconcileDelete : CAPICluster → CtrlResult × Option String :=
  fun _ => (emptyResult, none)

/-- `ClusterReconciler.Reconcile` (controller file lines 49-85). The Get
outcome is determined by the store contents; the two handlers are passed as
parameters so the dispatch-and-retry logic is stated once for any handler
behaviour (the current source handlers are the stubs above).
`microerror.Mask` keeps the error kind, so it is modelled as the identity.
On a Get error the masked error is returned with the zero result; on a
handler error the error is swallowed and a 30-second requeue is returned. -/
def Reconcile (store : Option CAPICluster)
    (onReconcile onReconcileDelete : CAPICluster → CtrlResult × Option String) :
    CtrlResult × Option String :=
  match getCluster store with
  | Except.error e => (emptyResult, some e)
  | Except.ok cluster =>
    if cluster.deletionTimestampSet then
      match onReconcileDelete cluster with
      | (res, none) => (res, none)
      | (_, some _) => (⟨false, 30⟩, none)
    else
      match onReconcile cluster with
      | (res, none) => (res, none)
      | (_, some _) => (⟨false, 30⟩, none)

example : Reconcile none reconcile reconcileDelete =
    (emptyResult, some "clusters.cluster.x-k8s.io not found") := by rfl
example : Reconcile (some ⟨"abc123", false⟩) reconcile reconcileDelete =
    (emptyResult, none) := by rfl
example : Reconcile (some ⟨"abc123", false⟩) (fun _ => (emptyResult, some "boom")) reconcileDelete =
    (⟨false, 30⟩, none) := by rfl
example : Reconcile (some ⟨"abc123", true⟩) reconcile (fun _ => (emptyResult, some "boom")) =
    (⟨false, 30⟩, none) := by rfl

/-! ### azureMigrator data model -/

/-- A `corev1.Secret` as the migrator reads it: name, namespace and the
`Data` byte map (byte strings modelled as strings). -/
structure Secret where
  name : String
  ns : String
  data : List (String × String)
deriving DecidableEq, Repr

/-- A legacy source object of which the migrator only touches the TypeMeta
kind (AzureConfig and Cluster items, MachinePool and AzureMachinePool
items). -/
structure SourceObj where
  kind : String
  name : String
deriving DecidableEq, Repr

/-- A typed list object as returned by a `List` call: its own TypeMeta kind
plus the items. -/
structure ObjList where
  kind : String
  items : List SourceObj
deriving DecidableEq, Repr

/-- Values stored in the migrator cache `m.crs` (a `map[string]interface\x7b\x7d`
keyed by kind name): the concrete runtime types the read steps store. -/
inductive CacheVal where
  | secretVal (s : Secret)
  | azureConfigVal (o : SourceObj)
  | clusterVal (o : SourceObj)
  | azureClusterVal (c : AzureCluster)
  | machinePoolListVal (l : ObjList)
  | azureMachinePoolListVal (l : ObjList)
deriving DecidableEq, Repr

/-- A created target object: kind, name, namespace and its payload (the
configuration mapping or string data rendered into it). -/
structure K8sObject where
  kind : String
  name : String
  ns : String
  payload : List (String × String)
deriving DecidableEq, Repr

/-- The management-cluster store the write steps create objects in. -/
abbrev MCState := List K8sObject

/-- Outcome of a client `Create` call: success, the AlreadyExists apierror,
or any other error. -/
inductive CreateOutcome where
  | created
  | alreadyExists
  | otherErr (e : String)
deriving DecidableEq, Repr

/-- The `EncryptionSecret` cache-key constant (azure_crs.go line 29). -/
def EncryptionSecret : String := "EncryptionSecret"

/-- The azureMigrator: cluster ID, the source cache `crs` (kept as the
ordered log of map writes; `lookupCrs` applies the Go map last-write-wins
read), and the management-cluster client, split into its Create side and
its Release `Get` side, both injected as in the source struct. -/
structure Migrator where
  clusterID : String
  crs : List (String × CacheVal)
  mcCreate : K8sObject → MCState → CreateOutcome × MCState
  mcGetRelease : String → Except String (List (String × String))

/-- Go map read over the write log: the last write to the key wins. -/
def lookupCrs (crs : List (String × CacheVal)) (k : String) : Option CacheVal :=
  crs.foldl (fun acc p => if p.1 == k then some p.2 else acc) none

/-- Go map read with the string zero value for a missing key (builds the
`components[c.Name] = c.Version` map reads). -/
def mapGet (l : List (String × String)) (k : String) : String :=
  (l.foldl (fun acc p => if p.1 == k then some p.2 else acc) none).getD ""

/-- The real apiserver Create semantics: AlreadyExists exactly when an
object with the same kind, namespace and name is present; otherwise the
object is stored. -/
def stdCreate : K8sObject → MCState → CreateOutcome × MCState :=
  fun obj st =>
    if st.any (fun o => o.kind == obj.kind && o.ns == obj.ns && o.name == obj.name) then
      (CreateOutcome.alreadyExists, st)
    else (CreateOutcome.created, st ++ [obj])

/-! ### Read phase (azure_crs.go lines 316-419)

Each read step receives the client result for its `Get`/`List` call and the
migrator, and returns the migrator after the step together with the error
the Go method returns (`none` on success), so a failing step visibly leaves
the cache untouched. -/

/-- `readEncryptionSecret` (316-327): Get the `<clusterID>-encryption` secret
in namespace default; on success cache it under the `EncryptionSecret` key. -/
def readEncryptionSecret (res : Except String Secret) (m : Migrator) :
    Migrator × Option String :=
  match res with
  | Except.error e => (m, some e)
  | Except.ok s => ({ m with crs := m.crs ++ [(EncryptionSecret, CacheVal.secretVal s)] }, none)

/-- `readAzureConfig` (329-349): List by the cluster-ID label; zero items or
more than one item is an error, the single item is cached under its Kind. -/
def readAzureConfig (res : Except String (List SourceObj)) (m : Migrator) :
    Migrator × Option String :=
  match res with
  | Except.error e => (m, some e)
  | Except.ok [] => (m, some ("AzureConfig not found for " ++ m.clusterID))
  | Except.ok [obj] =>
    ({ m with crs := m.crs ++ [(obj.kind, CacheVal.azureConfigVal obj)] }, none)
  | Except.ok (_ :: _ :: _) => (m, some ("more than one AzureConfig for cluster ID " ++ m.clusterID))

/-- `readCluster` (351-371): same zero/multi policy as `readAzureConfig`. -/
def readCluster (res : Except String (List SourceObj)) (m : Migrator) :
    Migrator × Option String :=
  match res with
  | Except.error e => (m, some e)
  | Except.ok [] => (m, some ("Cluster not found for " ++ m.clusterID))
  | Except.ok [obj] =>
    ({ m with crs := m.crs ++ [(obj.kind, CacheVal.clusterVal obj)] }, none)
  | Except.ok (_ :: _ :: _) => (m, some ("more than one Cluster for cluster ID " ++ m.clusterID))

/-- `readAzureCluster` (373-393): same zero/multi policy, AzureCluster items. -/
def readAzureCluster (res : Except String (List AzureCluster)) (m : Migrator) :
    Migrator × Option String :=
  match res with
  | Except.error e => (m, some e)
  | Except.ok [] => (m, some ("AzureCluster not found for " ++ m.clusterID))
  | Except.ok [obj] =>
    ({ m with crs := m.crs ++ [(obj.kind, CacheVal.azureClusterVal obj)] }, none)
  | Except.ok (_ :: _ :: _) => (m, some ("more than one AzureCluster for cluster ID " ++ m.clusterID))

/-- `readMachinePools` (395-406): the whole list object is cached under the
list object Kind, with no uniqueness check. -/
def readMachinePools (res : Except String ObjList) (m : Migrator) :
    Migrator × Option String :=
  match res with
  | Except.error e => (m, some e)
  | Except.ok l => ({ m with crs := m.crs ++ [(l.kind, CacheVal.machinePoolListVal l)] }, none)

/-- `readAzureMachinePools` (408-419): as `readMachinePools`. -/
def readAzureMachinePools (res : Except String ObjList) (m : Migrator) :
    Migrator × Option String :=
  match res with
  | Except.error e => (m, some e)
  | Except.ok l => ({ m with crs := m.crs ++ [(l.kind, CacheVal.azureMachinePoolListVal l)] }, none)

/-! ### Write phase (azure_crs.go lines 32-314) -/

/-- Result of a write step: success with the new store state, a returned
error, or a Go runtime panic (which aborts the process). -/
inductive StepResult where
  | ok (st : MCState)
  | err (e : String)
  | panicked (msg : String)
deriving Repr, DecidableEq

/-- The repeated Go create idiom of every write step
(`if apierrors.IsAlreadyExists(err) \x7b\x7d else if err != nil \x7b return mask err \x7d`):
AlreadyExists and success both end the step successfully, any other error is
returned. -/
def doCreate (m : Migrator) (obj : K8sObject) (st : MCState) : StepResult :=
  match m.mcCreate obj st with
  | (CreateOutcome.created, st2) => StepResult.ok st2
  | (CreateOutcome.alreadyExists, st2) => StepResult.ok st2
  | (CreateOutcome.otherErr e, _) => StepResult.err e

/-- `createEncryptionConfigSecret` (azure_crs.go 32-80), embedded faithfully
including its variable-shadowing slip: line 40 declares a NEW inner
`origEncryptionSecret` with `:=` inside the block, so the outer variable of
line 33 keeps its nil zero value, and line 59
(`origEncryptionSecret.Data["encryption"]`) dereferences a nil pointer and
panics whenever the cached object really is a `*corev1.Secret`. When the
cache key is missing or holds another type the function returns the
corresponding error before reaching line 59. The secret construction and
Create call of lines 61-77 are therefore unreachable. -/
def createEncryptionConfigSecret (m : Migrator) (_st : MCState) : StepResult :=
  match lookupCrs m.crs EncryptionSecret with
  | none => StepResult.err "encryption secret not found"
  | some (CacheVal.secretVal _) =>
    StepResult.panicked "runtime error: invalid memory address or nil pointer dereference"
  | some _ => StepResult.err "cannot convert obj to *v1.Secret"

/-- The static kube-proxy configuration document (azure_crs.go 83-89). -/
def proxyConfigYAML : String :=
  "\napiVersion: kubeproxy.config.k8s.io/v1alpha1\nclientConnection:\n  kubeconfig: /etc/kubernetes/config/proxy-kubeconfig.yaml\nkind: KubeProxyConfiguration\nmode: iptables\nmetricsBindAddress: 0.0.0.0:10249"

/-- The secret built by `createProxyConfigSecret` (azure_crs.go 91-100). -/
def proxyConfigSecretObj (clusterID : String) : K8sObject :=
  ⟨"Secret", clusterID ++ "-proxy-config", "default", [("proxy", proxyConfigYAML)]⟩

/-- `createProxyConfigSecret` (azure_crs.go 82-109). -/
def createProxyConfigSecret (m : Migrator) (st : MCState) : StepResult :=
  doCreate m (proxyConfigSecretObj m.clusterID) st

/-- `m.getReleaseComponents` (azure_crs.go 434-448): strip a leading `v`,
Get the Release object by that name and return its component mapping. -/
def getReleaseComponents (m : Migrator) (ver : String) :
    Except String (List (String × String)) :=
  m.mcGetRelease (trimLeadingV ver)

/-- `net.IP.String` for the addresses the migrator produces. -/
def ipString : IP → String
  | IP.v4 a b c d =>
    Nat.repr a ++ "." ++ Nat.repr b ++ "." ++ Nat.repr c ++ "." ++ Nat.repr d
  | IP.v6 => "ipv6"

/-- `net.IPNet.String`. -/
def ipNetString (n : IPNet) : String := ipString n.ip ++ "/" ++ Nat.repr n.maskLen

/-- The configuration mapping of `createKubeadmControlPlane`
(azure_crs.go 147-154). -/
def kubeadmControlPlaneCfg (clusterID baseDomain : String) (vnet : IPNet) (mip : IP)
    (releaseComponents : List (String × String)) : List (String × String) :=
  [("ClusterID", clusterID),
   ("ClusterCIDR", ipNetString vnet),
   ("ClusterMasterIP", ipString mip),
   ("EtcdVersion", mapGet releaseComponents "etcd"),
   ("K8sVersion", mapGet releaseComponents "kubernetes"),
   ("InstallationBaseDomain", baseDomain)]

/-- Modelled from the spec: `templates/kubeadm_controlplane_azure.yaml.tmpl`
is a static asset bundled with the program and not present under src/;
rendering it with the configuration mapping and parsing the YAML yields a
KubeadmControlPlane manifest with a deterministic name derived from the
cluster ID, in the fixed target namespace `default`. -/
def kubeadmControlPlaneObj (clusterID : String) (cfg : List (String × String)) : K8sObject :=
  ⟨"KubeadmControlPlane", clusterID ++ "-control-plane", "default", cfg⟩

/-- `createKubeadmControlPlane` (azure_crs.go 111-176): fetch the cached
AzureCluster (error when missing or of the wrong type), derive the base
domain, the VNET CIDR and the release components in source order, compute
the master IP (line 150, may panic on IPv6), then render and create. -/
def createKubeadmControlPlane (m : Migrator) (st : MCState) : StepResult :=
  match lookupCrs m.crs "AzureCluster" with
  | none => StepResult.err "AzureCluster not found"
  | some (CacheVal.azureClusterVal cluster) =>
    match getInstallationBaseDomainFromAPIEndpoint cluster.controlPlaneEndpointHost with
    | Except.error e => StepResult.err e
    | Except.ok baseDomain =>
      match getVNETCIDR cluster with
      | Except.error e => StepResult.err e
      | Except.ok vnet =>
        match getReleaseComponents m cluster.releaseVersion with
        | Except.error e => StepResult.err e
        | Except.ok releaseComponents =>
          match getMasterIPForVNet vnet with
          | MasterIPResult.panicked => StepResult.panicked "VNET CIDR is IPv6"
          | MasterIPResult.ok mip =>
            doCreate m
              (kubeadmControlPlaneObj m.clusterID
                (kubeadmControlPlaneCfg m.clusterID baseDomain vnet mip releaseComponents)) st
  | some _ => StepResult.err "cannot cast obj to *v1alpha3.AzureCluster"

/-- Modelled from the spec:
`templates/controlplane_azure_machine_template.yaml.tmpl` is a static asset
not present under src/; rendered from the cluster ID alone, giving an
AzureMachineTemplate with a deterministic cluster-ID-derived name in
namespace `default`. -/
def masterAzureMachineTemplateObj (clusterID : String) : K8sObject :=
  ⟨"AzureMachineTemplate", clusterID ++ "-control-plane", "default", [("ClusterID", clusterID)]⟩

/-- `createMasterAzureMachineTemplate` (azure_crs.go 178-210). -/
def createMasterAzureMachineTemplate (m : Migrator) (st : MCState) : StepResult :=
  doCreate m (masterAzureMachineTemplateObj m.clusterID) st

/-- Modelled from the spec:
`templates/workers_kubeadm_config_template_azure.yaml.tmpl`, rendered from
the cluster ID alone. -/
def workersKubeadmConfigTemplateObj (clusterID : String) : K8sObject :=
  ⟨"KubeadmConfigTemplate", clusterID ++ "-md-0", "default", [("ClusterID", clusterID)]⟩

/-- `createWorkersKubeadmConfigTemplate` (azure_crs.go 212-244). -/
def createWorkersKubeadmConfigTemplate (m : Migrator) (st : MCState) : StepResult :=
  doCreate m (workersKubeadmConfigTemplateObj m.clusterID) st

/-- Modelled from the spec: `templates/workers_azure_machine_template.yaml.tmpl`,
rendered from the cluster ID alone. -/
def workersAzureMachineTemplateObj (clusterID : String) : K8sObject :=
  ⟨"AzureMachineTemplate", clusterID ++ "-md-0", "default", [("ClusterID", clusterID)]⟩

/-- `createWorkersAzureMachineTemplate` (azure_crs.go 246-278). -/
def createWorkersAzureMachineTemplate (m : Migrator) (st : MCState) : StepResult :=
  doCreate m (workersAzureMachineTemplateObj m.clusterID) st

/-- Modelled from the spec: `templates/workers_machine_deployment.yaml.tmpl`,
rendered from the cluster ID and the hard-coded worker Kubernetes version
`v1.19.9` (azure_crs.go 286-292). -/
def workersMachineDeploymentObj (clusterID : String) : K8sObject :=
  ⟨"MachineDeployment", clusterID ++ "-md-0", "default",
   [("ClusterID", clusterID), ("K8sVersion", "v1.19.9")]⟩

/-- `createWorkersMachineDeployment` (azure_crs.go 280-314). -/
def createWorkersMachineDeployment (m : Migrator) (st : MCState) : StepResult :=
  doCreate m (workersMachineDeploymentObj m.clusterID) st

/-- Sequence a step after a previous result: later steps run only when the
earlier ones succeeded, errors and panics abort the sequence. -/
def StepResult.andThen (r : StepResult) (f : MCState → StepResult) : StepResult :=
  match r with
  | StepResult.ok st => f st
  | r => r

/-- Modelled from the spec: the migration driver sequencing the write steps
is not part of src/; the order is the write phase of spec section 4.4:
encryption-config secret, proxy-config secret, KubeadmControlPlane, master
AzureMachineTemplate, workers KubeadmConfigTemplate, workers
AzureMachineTemplate, workers MachineDeployment, each aborting the rest on
error. -/
def writePhase (m : Migrator) (st : MCState) : StepResult :=
  (((((createEncryptionConfigSecret m st).andThen
      (createProxyConfigSecret m)).andThen
      (createKubeadmControlPlane m)).andThen
      (createMasterAzureMachineTemplate m)).andThen
      (createWorkersKubeadmConfigTemplate m)).andThen
      (createWorkersAzureMachineTemplate m) |>.andThen
      (createWorkersMachineDeployment m)

/-! ### Read phase driver and fixtures -/

/-- The client results consumed by one read phase: one entry per read step,
in the order the driver runs them. -/
structure ReadInputs where
  encryptionSecretRes : Except String Secret
  azureConfigRes : Except String (List SourceObj)
  clusterRes : Except String (List SourceObj)
  azureClusterRes : Except String (List AzureCluster)
  machinePoolsRes : Except String ObjList
  azureMachinePoolsRes : Except String ObjList

/-- Modelled from the spec: the migration driver sequencing the read steps
is not part of src/; the order is the read phase of spec section 4.4:
encryption secret, AzureConfig, Cluster, AzureCluster, MachinePool list,
AzureMachinePool list, aborting on the first step error (the partially
filled migrator is kept, as the Go methods mutate the receiver in place). -/
def readPhase (inp : ReadInputs) (m0 : Migrator) : Migrator × Option String :=
  match readEncryptionSecret inp.encryptionSecretRes m0 with
  | (m1, some e) => (m1, some e)
  | (m1, none) =>
    match readAzureConfig inp.azureConfigRes m1 with
    | (m2, some e) => (m2, some e)
    | (m2, none) =>
      match readCluster inp.clusterRes m2 with
      | (m3, some e) => (m3, some e)
      | (m3, none) =>
        match readAzureCluster inp.azureClusterRes m3 with
        | (m4, some e) => (m4, some e)
        | (m4, none) =>
          match readMachinePools inp.machinePoolsRes m4 with
          | (m5, some e) => (m5, some e)
          | (m5, none) => readAzureMachinePools inp.azureMachinePoolsRes m5

/-- A concrete source encryption secret (`abc123-encryption`). -/
def sampleEncryptionSecret : Secret :=
  ⟨"abc123-encryption", "default", [("encryption", "0123456789abcdef0123456789abcdef")]⟩

/-- A concrete AzureCluster for cluster `abc123`. -/
def sampleAzureCluster : AzureCluster :=
  ⟨"AzureCluster", "abc123", ["10.0.0.0/16"], "api.abc123.k8s.example.installation.com", "v14.1.0"⟩

/-- A concrete Release lookup: release `14.1.0` carries etcd and kubernetes
component versions, everything else is missing. -/
def sampleRelease : String → Except String (List (String × String)) :=
  fun v =>
    if v == "14.1.0" then Except.ok [("etcd", "3.4.14"), ("kubernetes", "1.19.9")]
    else Except.error "releases.release.giantswarm.io not found"

/-- A migrator for cluster `abc123` whose cache already holds the encryption
secret and the AzureCluster, wired to the real-store Create semantics. -/
def sampleMigrator : Migrator :=
  ⟨"abc123",
   [(EncryptionSecret, CacheVal.secretVal sampleEncryptionSecret),
    ("AzureCluster", CacheVal.azureClusterVal sampleAzureCluster)],
   stdCreate, sampleRelease⟩

/-- The same migrator with an empty cache, as it starts the read phase. -/
def sampleMigratorEmpty : Migrator := ⟨"abc123", [], stdCreate, sampleRelease⟩

/-- Concrete read-phase client results for cluster `abc123`, each object
carrying its canonical TypeMeta kind. -/
def sampleReadInputs : ReadInputs :=
  ⟨Except.ok sampleEncryptionSecret,
   Except.ok [⟨"AzureConfig", "abc123"⟩],
   Except.ok [⟨"Cluster", "abc123"⟩],
   Except.ok [sampleAzureCluster],
   Except.ok ⟨"MachinePoolList", [⟨"MachinePool", "abc123-np1"⟩]⟩,
   Except.ok ⟨"AzureMachinePoolList", [⟨"AzureMachinePool", "abc123-np1"⟩]⟩⟩

example : (readPhase sampleReadInputs sampleMigratorEmpty).2 = none := by rfl
example : (readPhase sampleReadInputs sampleMigratorEmpty).1.crs.map Prod.fst =
    [EncryptionSecret, "AzureConfig", "Cluster", "AzureCluster",
     "MachinePoolList", "AzureMachinePoolList"] := by rfl
example : createEncryptionConfigSecret sampleMigrator [] =
    StepResult.panicked "runtime error: invalid memory address or nil pointer dereference" := by rfl
example : createProxyConfigSecret sampleMigrator [] =
    StepResult.ok [proxyConfigSecretObj "abc123"] := by rfl
example : createProxyConfigSecret sampleMigrator [proxyConfigSecretObj "abc123"] =
    StepResult.ok [proxyConfigSecretObj "abc123"] := by rfl
example : writePhase sampleMigrator [] =
    StepResult.panicked "runtime error: invalid memory address or nil pointer dereference" := by rfl
example :
    createKubeadmControlPlane sampleMigrator [] =
      StepResult.ok [kubeadmControlPlaneObj "abc123"
        (kubeadmControlPlaneCfg "abc123" "example.installation.com" ⟨IP.v4 10 0 0 0, 16⟩
          (IP.v4 10 0 0 4) [("etcd", "3.4.14"), ("kubernetes", "1.19.9")])] := by rfl

/-- A migrator whose client answers every Create with AlreadyExists. -/
def alreadyExistsMigrator : Migrator :=
  ⟨"abc123",
   [(EncryptionSecret, CacheVal.secretVal sampleEncryptionSecret),
    ("AzureCluster", CacheVal.azureClusterVal sampleAzureCluster)],
   fun _ st => (CreateOutcome.alreadyExists, st), sampleRelease⟩

/-- A migrator whose client fails every Create with a non-AlreadyExists
error. -/
def failingCreateMigrator : Migrator :=
  ⟨"abc123",
   [(EncryptionSecret, CacheVal.secretVal sampleEncryptionSecret),
    ("AzureCluster", CacheVal.azureClusterVal sampleAzureCluster)],
   fun _ st => (CreateOutcome.otherErr "connection refused", st), sampleRelease⟩

/-- The release components the sample Release lookup returns. -/
def sampleComponents : List (String × String) := [("etcd", "3.4.14"), ("kubernetes", "1.19.9")]

/-! ### Claim theorems -/

/-- C5: for every endpoint host containing a dot-separated label equal to
`k8s`, `getInstallationBaseDomainFromAPIEndpoint` returns the labels after
the (first) such label joined by dots with no error; for every host with no
such label it returns an error; and the host
`api.abc123.k8s.example.installation.com` yields `example.installation.com`. -/
theorem C5_base_domain_extraction (host : String) :
    ("k8s" ∈ splitOnChar '.' host →
      ∃ i, (splitOnChar '.' host).findIdx? (fun l => l == "k8s") = some i ∧
        getInstallationBaseDomainFromAPIEndpoint host =
          Except.ok (joinDot ((splitOnChar '.' host).drop (i + 1)))) ∧
    ("k8s" ∉ splitOnChar '.' host →
      getInstallationBaseDomainFromAPIEndpoint host =
        Except.error "cannot find domain label k8s from ControlPlaneEndpoint.Host") ∧
    getInstallationBaseDomainFromAPIEndpoint "api.abc123.k8s.example.installation.com" =
      Except.ok "example.installation.com" := by
  refine ⟨?_, ?_, by rfl⟩
  · intro hmem
    cases hf : (splitOnChar '.' host).findIdx? (fun l => l == "k8s") with
    | none =>
      rw [List.findIdx?_eq_none_iff] at hf
      exact absurd (hf _ hmem) (by simp)
    | some i =>
      refine ⟨i, rfl, ?_⟩
      simp only [getInstallationBaseDomainFromAPIEndpoint, hf]
  · intro hmem
    have hf : (splitOnChar '.' host).findIdx? (fun l => l == "k8s") = none := by
      rw [List.findIdx?_eq_none_iff]
      intro x hx
      simp only [beq_eq_false_iff_ne, ne_eq]
      intro h
      exact hmem (h ▸ hx)
    simp only [getInstallationBaseDomainFromAPIEndpoint, hf]

/-- C5 witness: both directions exercised on concrete hosts, the one from
the spec example and one without a `k8s` label. -/
theorem C5_base_domain_extraction_witness :
    (∃ i, (splitOnChar '.' "api.abc123.k8s.example.installation.com").findIdx?
        (fun l => l == "k8s") = some i ∧
      getInstallationBaseDomainFromAPIEndpoint "api.abc123.k8s.example.installation.com" =
        Except.ok (joinDot
          ((splitOnChar '.' "api.abc123.k8s.example.installation.com").drop (i + 1)))) ∧
    getInstallationBaseDomainFromAPIEndpoint "api.gigantic.io" =
      Except.error "cannot find domain label k8s from ControlPlaneEndpoint.Host" :=
  ⟨(C5_base_domain_extraction "api.abc123.k8s.example.installation.com").1 (by decide),
   (C5_base_domain_extraction "api.gigantic.io").2.1 (by decide)⟩

/-- C4 counterexample: `10.0.0.252/30` is a valid IPv4 CIDR whose network
address is `10.0.0.252`, yet the derived master IP has fourth octet 0, not
252 + 4: the octet is not incremented by 4 (it wraps), so the claim fails as
stated for every valid IPv4 CIDR string. -/
theorem C4_master_ip_counterexample :
    parseCIDR "10.0.0.252/30" = some ⟨IP.v4 10 0 0 252, 30⟩ ∧
    getMasterIPForVNet ⟨IP.v4 10 0 0 252, 30⟩ = MasterIPResult.ok (IP.v4 10 0 0 0) ∧
    MasterIPResult.ok (IP.v4 10 0 0 0) ≠ MasterIPResult.ok (IP.v4 10 0 0 (252 + 4)) :=
  ⟨by decide, by decide, by decide⟩

/-- C4 (amended): for every valid IPv4 CIDR string whose network address has
a fourth octet of at most 251, master-IP derivation — `getVNETCIDR` on the
cluster holding that CIDR followed by `getMasterIPForVNet` — returns the
network address with the fourth octet incremented by 4; the functions are
pure, so repeated application to the same network returns the same address;
and CIDR `10.0.0.0/16` yields master IP `10.0.0.4`. -/
theorem C4_master_ip_increment (cl : AzureCluster) (s : String) (rest : List String)
    (a b c d mlen : Nat)
    (hblocks : cl.cidrBlocks = s :: rest)
    (hparse : parseCIDR s = some ⟨IP.v4 a b c d, mlen⟩)
    (hd : d ≤ 251) :
    getVNETCIDR cl = Except.ok ⟨IP.v4 a b c d, mlen⟩ ∧
    getMasterIPForVNet ⟨IP.v4 a b c d, mlen⟩ = MasterIPResult.ok (IP.v4 a b c (d + 4)) ∧
    getMasterIPForVNet ⟨IP.v4 a b c d, mlen⟩ = getMasterIPForVNet ⟨IP.v4 a b c d, mlen⟩ ∧
    (parseCIDR "10.0.0.0/16" = some ⟨IP.v4 10 0 0 0, 16⟩ ∧
      getMasterIPForVNet ⟨IP.v4 10 0 0 0, 16⟩ = MasterIPResult.ok (IP.v4 10 0 0 4)) := by
  refine ⟨?_, ?_, rfl, by decide, by decide⟩
  · simp only [getVNETCIDR, hblocks, hparse]
  · simp only [getMasterIPForVNet, MasterIPResult.ok.injEq, IP.v4.injEq]
    exact ⟨trivial, trivial, trivial, Nat.mod_eq_of_lt (by omega)⟩

/-- C4 witness: the amended theorem applied to the sample cluster carrying
CIDR `10.0.0.0/16`. -/
theorem C4_master_ip_increment_witness :
    getVNETCIDR sampleAzureCluster = Except.ok ⟨IP.v4 10 0 0 0, 16⟩ ∧
    getMasterIPForVNet ⟨IP.v4 10 0 0 0, 16⟩ = MasterIPResult.ok (IP.v4 10 0 0 4) := by
  have h := C4_master_ip_increment sampleAzureCluster "10.0.0.0/16" [] 10 0 0 0 16
    (by rfl) (by decide) (by decide)
  exact ⟨h.1, h.2.1⟩

/-- C10: for every IPv4 network whose (byte-valued) fourth octet exceeds
251, `getMasterIPForVNet` does not abort: the octet addition is 8-bit
arithmetic, so the returned fourth octet wraps to `d + 4 - 256`, which is
not the plain increment by 4; in particular a network address ending in
`.252` yields a master IP ending in `.0`. -/
theorem C10_master_ip_wraparound (a b c d mlen : Nat) (hlo : 251 < d) (hhi : d ≤ 255) :
    getMasterIPForVNet ⟨IP.v4 a b c d, mlen⟩ = MasterIPResult.ok (IP.v4 a b c (d + 4 - 256)) ∧
    getMasterIPForVNet ⟨IP.v4 a b c d, mlen⟩ ≠ MasterIPResult.ok (IP.v4 a b c (d + 4)) ∧
    getMasterIPForVNet ⟨IP.v4 10 0 0 252, 30⟩ = MasterIPResult.ok (IP.v4 10 0 0 0) := by
  have hmod : (d + 4) % 256 = d + 4 - 256 := by
    rw [Nat.mod_eq_sub_mod (by omega)]
    exact Nat.mod_eq_of_lt (by omega)
  refine ⟨?_, ?_, by decide⟩
  · simp only [getMasterIPForVNet, MasterIPResult.ok.injEq, IP.v4.injEq]
    exact ⟨trivial, trivial, trivial, hmod⟩
  · simp only [getMasterIPForVNet, ne_eq, MasterIPResult.ok.injEq, IP.v4.injEq, hmod]
    omega

/-- C10 witness: the wraparound theorem applied at the network `10.0.0.252/30`. -/
theorem C10_master_ip_wraparound_witness :
    getMasterIPForVNet ⟨IP.v4 10 0 0 252, 30⟩ =
      MasterIPResult.ok (IP.v4 10 0 0 (252 + 4 - 256)) ∧
    getMasterIPForVNet ⟨IP.v4 10 0 0 252, 30⟩ ≠ MasterIPResult.ok (IP.v4 10 0 0 (252 + 4)) :=
  ⟨(C10_master_ip_wraparound 10 0 0 252 30 (by decide) (by decide)).1,
   (C10_master_ip_wraparound 10 0 0 252 30 (by decide) (by decide)).2.1⟩

/-- C3 counterexample: with the Cluster absent from the store, `Reconcile`
(with the source stub handlers) returns the masked Get error — the returned
error is not nil, so the request is not dropped as already handled. -/
theorem C3_absent_cluster_counterexample :
    Reconcile none reconcile reconcileDelete =
      (emptyResult, some "clusters.cluster.x-k8s.io not found") ∧
    (Reconcile none reconcile reconcileDelete).2 ≠ none :=
  ⟨rfl, by simp [Reconcile, getCluster]⟩

/-- C3 (amended): for every reconcile request whose Cluster object is absent
from the store, `Reconcile` returns the masked lookup error together with
the zero result (no requeue directive of its own); the error is surfaced to
the framework rather than the request being treated as already handled. -/
theorem C3_absent_cluster_returns_error
    (onReconcile onReconcileDelete : CAPICluster → CtrlResult × Option String) :
    Reconcile none onReconcile onReconcileDelete =
      (emptyResult, some "clusters.cluster.x-k8s.io not found") := rfl

/-- C8: whenever the fetched Cluster is present and the dispatched handler
(`reconcileDelete` when the deletion timestamp is set, `reconcile`
otherwise) returns an error, `Reconcile` returns a nil error together with a
requeue after exactly 30 seconds, bypassing the framework backoff. -/
theorem C8_handler_error_requeues_30s (c : CAPICluster)
    (onReconcile onReconcileDelete : CAPICluster → CtrlResult × Option String)
    (res : CtrlResult) (e : String)
    (hdispatch : (if c.deletionTimestampSet then onReconcileDelete c else onReconcile c) =
      (res, some e)) :
    Reconcile (some c) onReconcile onReconcileDelete = (⟨false, 30⟩, none) := by
  cases hts : c.deletionTimestampSet <;>
    simp only [hts, if_true, if_false, Bool.false_eq_true, ite_true, ite_false] at hdispatch <;>
    simp [Reconcile, getCluster, hts, hdispatch]

/-- C8 witness: a present, non-deleting Cluster whose reconcile handler
fails; the reconciler answers with a 30-second requeue and no error. -/
theorem C8_handler_error_requeues_30s_witness :
    Reconcile (some ⟨"abc123", false⟩) (fun _ => (emptyResult, some "boom")) reconcileDelete =
      (⟨false, 30⟩, none) :=
  C8_handler_error_requeues_30s ⟨"abc123", false⟩ (fun _ => (emptyResult, some "boom"))
    reconcileDelete emptyResult "boom" (by rfl)

/-- C1: evaluation at the failing input. The claim says the step succeeds as
a no-op when `abc123-k8s-encryption-config` exists and otherwise creates it
with the substituted key material; instead the code panics in both branches
with a nil-pointer dereference, because the short variable declaration at
azure_crs.go line 40 shadows the `origEncryptionSecret` read at line 59. -/
theorem C1_createEncryptionConfigSecret_panics :
    createEncryptionConfigSecret sampleMigrator [] =
      StepResult.panicked "runtime error: invalid memory address or nil pointer dereference" ∧
    createEncryptionConfigSecret sampleMigrator
        [⟨"Secret", "abc123-k8s-encryption-config", "default", []⟩] =
      StepResult.panicked "runtime error: invalid memory address or nil pointer dereference" :=
  ⟨rfl, rfl⟩

/-- C2: evaluation at the failing input: the write phase panics in its first
step, against an empty target store as well as against a store already
holding the target secret, so no cluster state admits even one successful
full run of the write phase, let alone an idempotent second one. -/
theorem C2_writePhase_never_completes :
    writePhase sampleMigrator [] =
      StepResult.panicked "runtime error: invalid memory address or nil pointer dereference" ∧
    writePhase sampleMigrator
        [⟨"Secret", "abc123-k8s-encryption-config", "default", []⟩,
         proxyConfigSecretObj "abc123",
         masterAzureMachineTemplateObj "abc123",
         workersKubeadmConfigTemplateObj "abc123",
         workersAzureMachineTemplateObj "abc123",
         workersMachineDeploymentObj "abc123"] =
      StepResult.panicked "runtime error: invalid memory address or nil pointer dereference" :=
  ⟨rfl, rfl⟩

/-- C6: `readCluster` fails with the not-found error on zero listed items
and with the multiple-found error on two or more, leaving the migrator (and
its cache) unchanged, and caches exactly the single listed object — keyed by
its kind — exactly when one item is listed; `readAzureConfig` and
`readAzureCluster` follow the same zero/multi policy. -/
theorem C6_read_zero_multi_policy (m : Migrator) (o o2 : SourceObj) (rest : List SourceObj)
    (az az2 : AzureCluster) (azRest : List AzureCluster) :
    readCluster (Except.ok []) m = (m, some ("Cluster not found for " ++ m.clusterID)) ∧
    readCluster (Except.ok (o :: o2 :: rest)) m =
      (m, some ("more than one Cluster for cluster ID " ++ m.clusterID)) ∧
    readCluster (Except.ok [o]) m =
      ({ m with crs := m.crs ++ [(o.kind, CacheVal.clusterVal o)] }, none) ∧
    readAzureConfig (Except.ok []) m = (m, some ("AzureConfig not found for " ++ m.clusterID)) ∧
    readAzureConfig (Except.ok (o :: o2 :: rest)) m =
      (m, some ("more than one AzureConfig for cluster ID " ++ m.clusterID)) ∧
    readAzureConfig (Except.ok [o]) m =
      ({ m with crs := m.crs ++ [(o.kind, CacheVal.azureConfigVal o)] }, none) ∧
    readAzureCluster (Except.ok []) m = (m, some ("AzureCluster not found for " ++ m.clusterID)) ∧
    readAzureCluster (Except.ok (az :: az2 :: azRest)) m =
      (m, some ("more than one AzureCluster for cluster ID " ++ m.clusterID)) ∧
    readAzureCluster (Except.ok [az]) m =
      ({ m with crs := m.crs ++ [(az.kind, CacheVal.azureClusterVal az)] }, none) :=
  ⟨rfl, rfl, rfl, rfl, rfl, rfl, rfl, rfl, rfl⟩

/-- C7: every write step turns an AlreadyExists failure of its Create call
into success (returning the state the client left), returns any other
Create error to the caller unchanged — aborting the remaining sequence — and
no step masks a non-AlreadyExists error. The encryption-config step never
reaches its Create call (it never returns success at all), so it masks
nothing. -/
theorem C7_write_step_create_error_policy (m : Migrator) (st st2 : MCState) (e : String) :
    (m.mcCreate (proxyConfigSecretObj m.clusterID) st = (CreateOutcome.alreadyExists, st2) →
      createProxyConfigSecret m st = StepResult.ok st2) ∧
    (m.mcCreate (proxyConfigSecretObj m.clusterID) st = (CreateOutcome.otherErr e, st2) →
      createProxyConfigSecret m st = StepResult.err e) ∧
    (m.mcCreate (masterAzureMachineTemplateObj m.clusterID) st =
        (CreateOutcome.alreadyExists, st2) →
      createMasterAzureMachineTemplate m st = StepResult.ok st2) ∧
    (m.mcCreate (masterAzureMachineTemplateObj m.clusterID) st =
        (CreateOutcome.otherErr e, st2) →
      createMasterAzureMachineTemplate m st = StepResult.err e) ∧
    (m.mcCreate (workersKubeadmConfigTemplateObj m.clusterID) st =
        (CreateOutcome.alreadyExists, st2) →
      createWorkersKubeadmConfigTemplate m st = StepResult.ok st2) ∧
    (m.mcCreate (workersKubeadmConfigTemplateObj m.clusterID) st =
        (CreateOutcome.otherErr e, st2) →
      createWorkersKubeadmConfigTemplate m st = StepResult.err e) ∧
    (m.mcCreate (workersAzureMachineTemplateObj m.clusterID) st =
        (CreateOutcome.alreadyExists, st2) →
      createWorkersAzureMachineTemplate m st = StepResult.ok st2) ∧
    (m.mcCreate (workersAzureMachineTemplateObj m.clusterID) st =
        (CreateOutcome.otherErr e, st2) →
      createWorkersAzureMachineTemplate m st = StepResult.err e) ∧
    (m.mcCreate (workersMachineDeploymentObj m.clusterID) st =
        (CreateOutcome.alreadyExists, st2) →
      createWorkersMachineDeployment m st = StepResult.ok st2) ∧
    (m.mcCreate (workersMachineDeploymentObj m.clusterID) st =
        (CreateOutcome.otherErr e, st2) →
      createWorkersMachineDeployment m st = StepResult.err e) ∧
    (∀ cluster baseDomain vnet mip comps,
      lookupCrs m.crs "AzureCluster" = some (CacheVal.azureClusterVal cluster) →
      getInstallationBaseDomainFromAPIEndpoint cluster.controlPlaneEndpointHost =
        Except.ok baseDomain →
      getVNETCIDR cluster = Except.ok vnet →
      getReleaseComponents m cluster.releaseVersion = Except.ok comps →
      getMasterIPForVNet vnet = MasterIPResult.ok mip →
      (m.mcCreate (kubeadmControlPlaneObj m.clusterID
          (kubeadmControlPlaneCfg m.clusterID baseDomain vnet mip comps)) st =
            (CreateOutcome.alreadyExists, st2) →
        createKubeadmControlPlane m st = StepResult.ok st2) ∧
      (m.mcCreate (kubeadmControlPlaneObj m.clusterID
          (kubeadmControlPlaneCfg m.clusterID baseDomain vnet mip comps)) st =
            (CreateOutcome.otherErr e, st2) →
        createKubeadmControlPlane m st = StepResult.err e)) ∧
    (∀ stA stB, createEncryptionConfigSecret m stA ≠ StepResult.ok stB) := by
  refine ⟨?_, ?_, ?_, ?_, ?_, ?_, ?_, ?_, ?_, ?_, ?_, ?_⟩
  case _ => intro h; simp [createProxyConfigSecret, doCreate, h]
  case _ => intro h; simp [createProxyConfigSecret, doCreate, h]
  case _ => intro h; simp [createMasterAzureMachineTemplate, doCreate, h]
  case _ => intro h; simp [createMasterAzureMachineTemplate, doCreate, h]
  case _ => intro h; simp [createWorkersKubeadmConfigTemplate, doCreate, h]
  case _ => intro h; simp [createWorkersKubeadmConfigTemplate, doCreate, h]
  case _ => intro h; simp [createWorkersAzureMachineTemplate, doCreate, h]
  case _ => intro h; simp [createWorkersAzureMachineTemplate, doCreate, h]
  case _ => intro h; simp [createWorkersMachineDeployment, doCreate, h]
  case _ => intro h; simp [createWorkersMachineDeployment, doCreate, h]
  case _ =>
    intro cluster baseDomain vnet mip comps hl hbd hv hrc hmip
    constructor
    · intro hc
      simp [createKubeadmControlPlane, hl, hbd, hv, hrc, hmip, doCreate, hc]
    · intro hc
      simp [createKubeadmControlPlane, hl, hbd, hv, hrc, hmip, doCreate, hc]
  case _ =>
    intro stA stB h
    cases hl : lookupCrs m.crs EncryptionSecret with
    | none => simp [createEncryptionConfigSecret, hl] at h
    | some v => cases v <;> simp [createEncryptionConfigSecret, hl] at h

/-- C7 witness: each error-policy branch exercised at concrete inputs: a
client answering AlreadyExists, a client failing with another error, and the
encryption-config step never succeeding. -/
theorem C7_write_step_create_error_policy_witness :
    createProxyConfigSecret alreadyExistsMigrator [] = StepResult.ok [] ∧
    createProxyConfigSecret failingCreateMigrator [] = StepResult.err "connection refused" ∧
    createMasterAzureMachineTemplate alreadyExistsMigrator [] = StepResult.ok [] ∧
    createMasterAzureMachineTemplate failingCreateMigrator [] =
      StepResult.err "connection refused" ∧
    createWorkersKubeadmConfigTemplate alreadyExistsMigrator [] = StepResult.ok [] ∧
    createWorkersKubeadmConfigTemplate failingCreateMigrator [] =
      StepResult.err "connection refused" ∧
    createWorkersAzureMachineTemplate alreadyExistsMigrator [] = StepResult.ok [] ∧
    createWorkersAzureMachineTemplate failingCreateMigrator [] =
      StepResult.err "connection refused" ∧
    createWorkersMachineDeployment alreadyExistsMigrator [] = StepResult.ok [] ∧
    createWorkersMachineDeployment failingCreateMigrator [] =
      StepResult.err "connection refused" ∧
    createKubeadmControlPlane alreadyExistsMigrator [] = StepResult.ok [] ∧
    createKubeadmControlPlane failingCreateMigrator [] = StepResult.err "connection refused" ∧
    createEncryptionConfigSecret alreadyExistsMigrator [] ≠ StepResult.ok [] := by
  have hA := C7_write_step_create_error_policy alreadyExistsMigrator [] [] "connection refused"
  have hF := C7_write_step_create_error_policy failingCreateMigrator [] [] "connection refused"
  refine ⟨hA.1 rfl, hF.2.1 rfl, hA.2.2.1 rfl, hF.2.2.2.1 rfl,
    hA.2.2.2.2.1 rfl, hF.2.2.2.2.2.1 rfl,
    hA.2.2.2.2.2.2.1 rfl, hF.2.2.2.2.2.2.2.1 rfl,
    hA.2.2.2.2.2.2.2.2.1 rfl, hF.2.2.2.2.2.2.2.2.2.1 rfl,
    ?_, ?_, hA.2.2.2.2.2.2.2.2.2.2.2 [] []⟩
  · exact (hA.2.2.2.2.2.2.2.2.2.2.1 sampleAzureCluster "example.installation.com"
      ⟨IP.v4 10 0 0 0, 16⟩ (IP.v4 10 0 0 4) sampleComponents
      (by rfl) (by rfl) (by rfl) (by rfl) (by rfl)).1 rfl
  · exact (hF.2.2.2.2.2.2.2.2.2.2.1 sampleAzureCluster "example.installation.com"
      ⟨IP.v4 10 0 0 0, 16⟩ (IP.v4 10 0 0 4) sampleComponents
      (by rfl) (by rfl) (by rfl) (by rfl) (by rfl)).2 rfl

/-- C9: across the read steps of one migration run, each source-cache key is
written at most once: in a completed read phase over fetched objects
carrying their canonical TypeMeta kinds, the cache write log holds exactly
the six pairwise-distinct keys in step order — at most one cached object per
kind, and no step overwrote an entry written by an earlier step. (The driver
sequencing the steps is modelled from the spec.) -/
theorem C9_read_phase_single_write_per_kind
    (s1 : Secret) (o2 o3 : SourceObj) (az : AzureCluster) (l5 l6 : ObjList)
    (m0 mEnd : Migrator)
    (h0 : m0.crs = [])
    (hk2 : o2.kind = "AzureConfig") (hk3 : o3.kind = "Cluster")
    (hk4 : az.kind = "AzureCluster")
    (hk5 : l5.kind = "MachinePoolList") (hk6 : l6.kind = "AzureMachinePoolList")
    (hrun : readPhase ⟨Except.ok s1, Except.ok [o2], Except.ok [o3], Except.ok [az],
      Except.ok l5, Except.ok l6⟩ m0 = (mEnd, none)) :
    mEnd.crs.map Prod.fst =
      [EncryptionSecret, "AzureConfig", "Cluster", "AzureCluster",
       "MachinePoolList", "AzureMachinePoolList"] ∧
    (mEnd.crs.map Prod.fst).Nodup := by
  simp only [readPhase, readEncryptionSecret, readAzureConfig, readCluster,
    readAzureCluster, readMachinePools, readAzureMachinePools, Prod.mk.injEq,
    and_true] at hrun
  subst hrun
  have hkeys :
      ({ m0 with crs := ((((m0.crs ++ [(EncryptionSecret, CacheVal.secretVal s1)] ++
          [(o2.kind, CacheVal.azureConfigVal o2)]) ++ [(o3.kind, CacheVal.clusterVal o3)]) ++
          [(az.kind, CacheVal.azureClusterVal az)]) ++ [(l5.kind, CacheVal.machinePoolListVal l5)]) ++
          [(l6.kind, CacheVal.azureMachinePoolListVal l6)] } : Migrator).crs.map Prod.fst =
        [EncryptionSecret, "AzureConfig", "Cluster", "AzureCluster",
         "MachinePoolList", "AzureMachinePoolList"] := by
    simp [h0, hk2, hk3, hk4, hk5, hk6]
  exact ⟨hkeys, hkeys ▸ (by decide)⟩

/-- C9 witness: the concrete read phase over the sample inputs writes the
six canonical keys once each, with no duplicates. -/
theorem C9_read_phase_single_write_per_kind_witness :
    ((readPhase sampleReadInputs sampleMigratorEmpty).1.crs.map Prod.fst =
      [EncryptionSecret, "AzureConfig", "Cluster", "AzureCluster",
       "MachinePoolList", "AzureMachinePoolList"]) ∧
    ((readPhase sampleReadInputs sampleMigratorEmpty).1.crs.map Prod.fst).Nodup :=
  C9_read_phase_single_write_per_kind sampleEncryptionSecret ⟨"AzureConfig", "abc123"⟩
    ⟨"Cluster", "abc123"⟩ sampleAzureCluster ⟨"MachinePoolList", [⟨"MachinePool", "abc123-np1"⟩]⟩
    ⟨"AzureMachinePoolList", [⟨"AzureMachinePool", "abc123-np1"⟩]⟩
    sampleMigratorEmpty (readPhase sampleReadInputs sampleMigratorEmpty).1
    rfl rfl rfl rfl rfl rfl (by rfl)
